import Mathlib

/-!
Verification of the connection-lifecycle core of `server.go` (package
`thriftutils`): a shallow embedding of the `Server` type, its constructors,
`SetForwardHeaders`, `innerAccept` / `AcceptLoop` / `Serve`, `Stop`, and the
per-connection `processRequests` serve loop, together with theorems settling
the specified behaviour.

Conventions of the embedding:
* Connections, transports and protocol instances are identified by `Nat` ids;
  a Go `nil` transport is `Option.none`.
* Go `error` values are modelled by `GoError`; the Go type assertions
  `err.(thrift.TTransportException)` and `err.(thrift.TApplicationException)`
  succeed exactly on the corresponding constructors.  In the thrift library
  both exception types are interfaces whose zero value is nil, and
  `TApplicationException` (whose `TypeId` returns `int32`) does not satisfy
  `TTransportException` (whose `TypeId` returns `int`); the embedding of the
  error-classification chain in `processRequests` reflects this.
* Concurrency is resolved by feeding each blocking call's outcome as an
  explicit input: the value observed by `atomic.LoadInt32(&p.closed)` inside
  `innerAccept` and inside the serve loop arrives as a field of the iteration
  input, since a concurrent `Stop` may have set it at any point.
-/

/-- Go `error` values as classified by the type assertions of `server.go`:
`none` is the nil error, `transportExc t` a `thrift.TTransportException`
whose `TypeId()` is `t`, `appExc t` a `thrift.TApplicationException` whose
`TypeId()` is `t`, and `other c` any other non-nil error value. -/
inductive GoError where
  | none
  | transportExc (typeId : Nat)
  | appExc (typeId : Nat)
  | other (code : Nat)
deriving DecidableEq, Repr

/-- `thrift.END_OF_FILE`, the `TTransportException` type id for a clean
end-of-stream. -/
def END_OF_FILE : Nat := 4

/-- `thrift.UNKNOWN_METHOD`, the `TApplicationException` type id for an
unrecognized request method. -/
def UNKNOWN_METHOD : Nat := 1

/-- The inputs consumed by one iteration of the `for` loop of
`processRequests` (server.go lines 263-295): the value of the closed flag
loaded at the top of the iteration, the result of
`headerProtocol.ReadFrame()` (consulted only when the input protocol is a
`THeaderProtocol`), whether `processor.Process` panics, and otherwise the
`(ok, err)` pair it returns. -/
structure IterInput where
  closedFlag : Bool
  frameErr : GoError
  procPanics : Bool
  procOk : Bool
  procErr : GoError
deriving DecidableEq, Repr

/-- How the serve loop of `processRequests` ends: `retNil` is `return nil`
(including `break` followed by the final `return nil`), `retErr e` is
`return e` with a non-nil error, and `panicked` is a panic from
`processor.Process` that the deferred `recover` absorbs (the function then
returns the zero value, a nil error). -/
inductive SessionExit where
  | retNil
  | retErr (e : GoError)
  | panicked
deriving DecidableEq, Repr

/-- Outcome of a single iteration of the serve loop: exit the loop (with how
the function call ends) or proceed to the next iteration. -/
inductive IterStep where
  | exit (r : SessionExit)
  | next
deriving DecidableEq, Repr

/-- One iteration of the serve loop of `processRequests` (server.go lines
263-295), for a session whose input protocol is a `THeaderProtocol` iff
`isHeader`:
1. `if atomic.LoadInt32(&p.closed) != 0 { return nil }`;
2. for a header protocol, `if err := headerProtocol.ReadFrame(); err != nil
   { return err }`;
3. `ok, err := processor.Process(...)` (a panic here unwinds out of the
   loop);
4. `if err, ok := err.(thrift.TTransportException); ok && err.TypeId() ==
   thrift.END_OF_FILE { return nil } else if err != nil { return err }` —
   the `err` of the `else if` is the one bound by the type assertion, which
   is nil whenever the assertion failed, so only a `TTransportException`
   with another type id is returned here;
5. `if err, ok := err.(thrift.TApplicationException); ok && err.TypeId() ==
   thrift.UNKNOWN_METHOD { continue }` — reached for any error that is not a
   `TTransportException`;
6. `if !ok { break }`, and the statement after the loop is `return nil`. -/
def sessionIter (isHeader : Bool) (inp : IterInput) : IterStep :=
  if inp.closedFlag then IterStep.exit SessionExit.retNil
  else if isHeader && !(inp.frameErr == GoError.none) then
    IterStep.exit (SessionExit.retErr inp.frameErr)
  else if inp.procPanics then IterStep.exit SessionExit.panicked
  else
    match inp.procErr with
    | GoError.transportExc t =>
        if t = END_OF_FILE then IterStep.exit SessionExit.retNil
        else IterStep.exit (SessionExit.retErr (GoError.transportExc t))
    | GoError.appExc t =>
        if t = UNKNOWN_METHOD then IterStep.next
        else if inp.procOk then IterStep.next
        else IterStep.exit SessionExit.retNil
    | GoError.none =>
        if inp.procOk then IterStep.next
        else IterStep.exit SessionExit.retNil
    | GoError.other _ =>
        if inp.procOk then IterStep.next
        else IterStep.exit SessionExit.retNil

/-- Run the serve loop of `processRequests` over a finite script of
iteration inputs; `Option.none` means the script was exhausted with the loop
still running (the real loop would block on the next request). -/
def runSessionLoop (isHeader : Bool) : List IterInput → Option SessionExit
  | [] => Option.none
  | inp :: rest =>
      match sessionIter isHeader inp with
      | IterStep.exit r => Option.some r
      | IterStep.next => runSessionLoop isHeader rest

/-- C1: an `UNKNOWN_METHOD` application exception from the processor does
not exit the serve loop: the iteration steps to the next one, and running
the loop on the remaining script is unchanged — subsequent requests on the
same connection keep being served. -/
theorem unknown_method_continues (isHeader : Bool) (inp : IterInput)
    (rest : List IterInput)
    (hclosed : inp.closedFlag = false)
    (hframe : isHeader = true → inp.frameErr = GoError.none)
    (hpanic : inp.procPanics = false)
    (herr : inp.procErr = GoError.appExc UNKNOWN_METHOD) :
    sessionIter isHeader inp = IterStep.next ∧
      runSessionLoop isHeader (inp :: rest) = runSessionLoop isHeader rest := by
  have hstep : sessionIter isHeader inp = IterStep.next := by
    unfold sessionIter
    rw [hclosed, hpanic, herr]
    cases isHeader with
    | false => simp [UNKNOWN_METHOD]
    | true => rw [hframe rfl]; simp [UNKNOWN_METHOD]
  refine ⟨hstep, ?_⟩
  simp only [runSessionLoop, hstep]

/-- Witness for C1: the theorem applied at a concrete input whose processor
error is an `UNKNOWN_METHOD` application exception. -/
theorem unknown_method_continues_witness :
    sessionIter true ⟨false, GoError.none, false, true, GoError.appExc 1⟩ =
        IterStep.next ∧
      runSessionLoop true
          [⟨false, GoError.none, false, true, GoError.appExc 1⟩,
           ⟨false, GoError.none, false, false, GoError.none⟩] =
        runSessionLoop true [⟨false, GoError.none, false, false, GoError.none⟩] :=
  unknown_method_continues true
    ⟨false, GoError.none, false, true, GoError.appExc 1⟩
    [⟨false, GoError.none, false, false, GoError.none⟩]
    rfl (fun _ => rfl) rfl rfl

/-- The mutable state of a `Server` shared between the accept loop, the
sessions and `Stop`: the `closed` int32 flag, the `wg` wait-group counter,
and the `connections` registry (a Go map from connection identity to
`struct{}{}`, embedded as a duplicate-free list of connection ids). -/
structure ServerState where
  closed : Nat
  wgCounter : Nat
  connections : List Nat
deriving DecidableEq, Repr

/-- Insertion into the `connections` map: `p.connections[client] = struct{}{}`
adds the key when absent and is a no-op on membership when present. -/
def insertConn (c : Nat) (l : List Nat) : List Nat :=
  if c ∈ l then l else l ++ [c]

/-- The inputs consumed by one call to `innerAccept` (server.go lines
156-186): the pair returned by `p.serverTransport.Accept()` (a possibly nil
connection and a possibly nil error), and the value that
`atomic.LoadInt32(&p.closed)` observes under the mutex — supplied as an
input because a concurrent `Stop` may set the flag at any point. -/
structure AcceptInput where
  closed : Nat
  client : Option Nat
  err : GoError
deriving DecidableEq, Repr

/-- The effect of one `innerAccept` call: the updated server state, the
connection handed to a freshly launched session goroutine (if any), the
connection closed immediately (if any), and the returned
`(closed int32, err error)` pair. -/
structure AcceptResult where
  state : ServerState
  spawned : Option Nat
  closedClient : Option Nat
  retClosed : Nat
  retErr : GoError
deriving DecidableEq, Repr

/-- `innerAccept` (server.go lines 156-186): after `Accept` returns, under
the mutex: if the loaded closed flag is non-zero, close the client if it is
non-nil and return `(closed, nil)`; otherwise if `Accept` errored, return
`(0, err)`; otherwise, for a non-nil client, `wg.Add(1)`, insert the client
into the registry and launch its session goroutine; return `(0, nil)`. -/
def innerAccept (s : ServerState) (inp : AcceptInput) : AcceptResult :=
  if inp.closed ≠ 0 then
    { state := s, spawned := Option.none, closedClient := inp.client,
      retClosed := inp.closed, retErr := GoError.none }
  else if inp.err ≠ GoError.none then
    { state := s, spawned := Option.none, closedClient := Option.none,
      retClosed := 0, retErr := inp.err }
  else
    match inp.client with
    | Option.some c =>
        { state := { s with wgCounter := s.wgCounter + 1,
                            connections := insertConn c s.connections },
          spawned := Option.some c, closedClient := Option.none,
          retClosed := 0, retErr := GoError.none }
    | Option.none =>
        { state := s, spawned := Option.none, closedClient := Option.none,
          retClosed := 0, retErr := GoError.none }

/-- `AcceptLoop` (server.go lines 188-198) over a finite script of accept
outcomes: each iteration calls `innerAccept`; a non-nil error is returned,
a non-zero closed signal returns nil, otherwise the loop continues.
`Option.none` means the script was exhausted with the loop still blocked in
the next `Accept`. -/
def AcceptLoop (s : ServerState) : List AcceptInput → Option (GoError × ServerState)
  | [] => Option.none
  | inp :: rest =>
      let r := innerAccept s inp
      if r.retErr ≠ GoError.none then Option.some (r.retErr, r.state)
      else if r.retClosed ≠ 0 then Option.some (GoError.none, r.state)
      else AcceptLoop r.state rest

/-- `Serve` (server.go lines 200-207): `Listen` first — a listen error is
returned immediately; otherwise `p.AcceptLoop()` is called and its return
value is DISCARDED: `Serve` then returns nil. -/
def Serve (listenErr : GoError) (s : ServerState) (script : List AcceptInput) :
    Option (GoError × ServerState) :=
  match listenErr with
  | GoError.none => (AcceptLoop s script).map (fun r => (GoError.none, r.2))
  | e => Option.some (e, s)

/-- The effect of one `Stop` call (server.go lines 209-224): the returned
error, the state after the call, whether `p.serverTransport.Interrupt()`
was invoked, the connections the sweep closed, and whether `p.wg.Wait()`
was reached. -/
structure StopResult where
  ret : GoError
  state : ServerState
  interrupted : Bool
  closedConns : List Nat
  waited : Bool
deriving DecidableEq, Repr

/-- `Stop` (server.go lines 209-224): under the mutex, if the closed flag is
already non-zero return nil at once (no interrupt, no sweep, no wait);
otherwise store 1 into the flag, interrupt the listener, close and delete
every registered connection, release the mutex and block in `wg.Wait()`. -/
def Stop (s : ServerState) : StopResult :=
  if s.closed ≠ 0 then
    { ret := GoError.none, state := s, interrupted := false,
      closedConns := [], waited := false }
  else
    { ret := GoError.none,
      state := { s with closed := 1, connections := [] },
      interrupted := true, closedConns := s.connections, waited := true }

/-- In an iteration whose observed closed flag is zero and whose accept
error is nil, `innerAccept` signals neither error nor termination, so the
accept loop continues. -/
theorem innerAccept_continues (s : ServerState) (inp : AcceptInput)
    (hc : inp.closed = 0) (he : inp.err = GoError.none) :
    (innerAccept s inp).retErr = GoError.none ∧
      (innerAccept s inp).retClosed = 0 := by
  unfold innerAccept
  rw [hc, he]
  cases inp.client <;> simp

/-- C2 counterexample: listen succeeds, the closed flag is unset, and
accept fails with a non-nil error — yet `Serve` returns nil, not that
error. -/
theorem serve_swallows_accept_error_cex :
    Serve GoError.none ⟨0, 0, []⟩ [⟨0, Option.none, GoError.other 7⟩] =
        Option.some (GoError.none, ⟨0, 0, []⟩) ∧
      GoError.none ≠ GoError.other 7 := by
  constructor
  · rfl
  · decide

/-- C2 amended: if accept returns a non-nil error while the closed flag is
still unset (after any number of uneventful iterations), `AcceptLoop`
returns that exact error to its caller — but `Serve` discards the
`AcceptLoop` result and returns nil. -/
theorem acceptLoop_propagates_accept_error (s : ServerState)
    (pre : List AcceptInput) (inp : AcceptInput) (rest : List AcceptInput)
    (hpre : ∀ x ∈ pre, x.closed = 0 ∧ x.err = GoError.none)
    (hc : inp.closed = 0) (he : inp.err ≠ GoError.none) :
    (AcceptLoop s (pre ++ inp :: rest)).map Prod.fst = Option.some inp.err ∧
      (Serve GoError.none s (pre ++ inp :: rest)).map Prod.fst =
        Option.some GoError.none := by
  have main : ∀ (l : List AcceptInput) (s : ServerState),
      (∀ x ∈ l, x.closed = 0 ∧ x.err = GoError.none) →
      (AcceptLoop s (l ++ inp :: rest)).map Prod.fst = Option.some inp.err := by
    intro l
    induction l with
    | nil =>
        intro s _
        simp [AcceptLoop, innerAccept, hc, he]
    | cons x xs ih =>
        intro s hall
        have hx := hall x (List.mem_cons_self x xs)
        have hcont := innerAccept_continues s x hx.1 hx.2
        simp only [List.cons_append, AcceptLoop, hcont.1, hcont.2]
        simp only [ne_eq, not_true_eq_false, if_false, if_neg]
        exact ih (innerAccept s x).state
          (fun y hy => hall y (List.mem_cons_of_mem x hy))
  refine ⟨main pre s hpre, ?_⟩
  have h1 := main pre s hpre
  unfold Serve
  cases hAL : AcceptLoop s (pre ++ inp :: rest) with
  | none => rw [hAL] at h1; simp at h1
  | some r => simp [hAL]

/-- Witness for the amended C2: one uneventful accepted connection, then a
failed accept; `AcceptLoop` yields the error, `Serve` yields nil. -/
theorem acceptLoop_propagates_accept_error_witness :
    (AcceptLoop ⟨0, 0, []⟩
        ([⟨0, Option.some 1, GoError.none⟩] ++
          ⟨0, Option.none, GoError.other 7⟩ :: [])).map Prod.fst =
        Option.some (GoError.other 7) ∧
      (Serve GoError.none ⟨0, 0, []⟩
          ([⟨0, Option.some 1, GoError.none⟩] ++
            ⟨0, Option.none, GoError.other 7⟩ :: [])).map Prod.fst =
        Option.some GoError.none :=
  acceptLoop_propagates_accept_error ⟨0, 0, []⟩
    [⟨0, Option.some 1, GoError.none⟩] ⟨0, Option.none, GoError.other 7⟩ []
    (by decide) rfl (by decide)

/-- C3: when the closed flag is already set at examination time, the
iteration is a clean shutdown regardless of the accept error: any live
client accept produced is closed immediately, the registry and counter are
untouched and no session is launched, `innerAccept` returns the closed
signal with a nil error, the loop then terminates with nil, and `Serve`
returns nil. -/
theorem closed_flag_clean_shutdown (s : ServerState) (inp : AcceptInput)
    (rest : List AcceptInput) (hc : inp.closed ≠ 0) :
    innerAccept s inp =
        { state := s, spawned := Option.none, closedClient := inp.client,
          retClosed := inp.closed, retErr := GoError.none } ∧
      AcceptLoop s (inp :: rest) = Option.some (GoError.none, s) ∧
      Serve GoError.none s (inp :: rest) = Option.some (GoError.none, s) := by
  have h1 : innerAccept s inp =
      { state := s, spawned := Option.none, closedClient := inp.client,
        retClosed := inp.closed, retErr := GoError.none } := by
    unfold innerAccept
    rw [if_pos hc]
  have h2 : AcceptLoop s (inp :: rest) = Option.some (GoError.none, s) := by
    simp [AcceptLoop, h1, hc]
  exact ⟨h1, h2, by simp [Serve, h2]⟩

/-- Witness for C3: the closed flag reads 1 while accept produced both a
live connection and an error; the connection is closed unserved and
`Serve` returns nil. -/
theorem closed_flag_clean_shutdown_witness :
    innerAccept ⟨1, 1, [4]⟩ ⟨1, Option.some 9, GoError.other 3⟩ =
        { state := ⟨1, 1, [4]⟩, spawned := Option.none,
          closedClient := Option.some 9, retClosed := 1,
          retErr := GoError.none } ∧
      AcceptLoop ⟨1, 1, [4]⟩ [⟨1, Option.some 9, GoError.other 3⟩] =
        Option.some (GoError.none, ⟨1, 1, [4]⟩) ∧
      Serve GoError.none ⟨1, 1, [4]⟩ [⟨1, Option.some 9, GoError.other 3⟩] =
        Option.some (GoError.none, ⟨1, 1, [4]⟩) :=
  closed_flag_clean_shutdown ⟨1, 1, [4]⟩ ⟨1, Option.some 9, GoError.other 3⟩ []
    (by decide)

/-- C10: a nil connection with a nil error while the server is running
registers nothing, changes neither counter nor registry, launches no
session, and the loop just proceeds to the next accept. -/
theorem nil_conn_nil_err_noop (s : ServerState) (inp : AcceptInput)
    (rest : List AcceptInput) (hc : inp.closed = 0)
    (he : inp.err = GoError.none) (hcl : inp.client = Option.none) :
    innerAccept s inp =
        { state := s, spawned := Option.none, closedClient := Option.none,
          retClosed := 0, retErr := GoError.none } ∧
      AcceptLoop s (inp :: rest) = AcceptLoop s rest := by
  have h1 : innerAccept s inp =
      { state := s, spawned := Option.none, closedClient := Option.none,
        retClosed := 0, retErr := GoError.none } := by
    unfold innerAccept
    rw [hc, he, hcl]
    simp
  refine ⟨h1, ?_⟩
  simp [AcceptLoop, h1]

/-- Witness for C10: a concrete running state and a `(nil, nil)` accept
outcome leave everything unchanged. -/
theorem nil_conn_nil_err_noop_witness :
    innerAccept ⟨0, 2, [3]⟩ ⟨0, Option.none, GoError.none⟩ =
        { state := ⟨0, 2, [3]⟩, spawned := Option.none,
          closedClient := Option.none, retClosed := 0,
          retErr := GoError.none } ∧
      AcceptLoop ⟨0, 2, [3]⟩ [⟨0, Option.none, GoError.none⟩,
          ⟨1, Option.none, GoError.none⟩] =
        AcceptLoop ⟨0, 2, [3]⟩ [⟨1, Option.none, GoError.none⟩] :=
  nil_conn_nil_err_noop ⟨0, 2, [3]⟩ ⟨0, Option.none, GoError.none⟩
    [⟨1, Option.none, GoError.none⟩] rfl rfl rfl

/-- C4: the first `Stop` call (closed flag still zero) returns nil, sets
the closed flag, interrupts the listener, closes exactly the connections
registered at that moment and removes them all — the registry is empty when
`Stop` returns — and reaches `wg.Wait()` on the live-session counter. -/
theorem stop_first_call (s : ServerState) (hc : s.closed = 0) :
    Stop s =
      { ret := GoError.none,
        state := { closed := 1, wgCounter := s.wgCounter, connections := [] },
        interrupted := true, closedConns := s.connections, waited := true } := by
  unfold Stop
  simp [hc]

/-- Witness for C4: stopping a running server with two registered
connections closes both, empties the registry and waits. -/
theorem stop_first_call_witness :
    Stop ⟨0, 2, [3, 5]⟩ =
      { ret := GoError.none,
        state := { closed := 1, wgCounter := 2, connections := [] },
        interrupted := true, closedConns := [3, 5], waited := true } :=
  stop_first_call ⟨0, 2, [3, 5]⟩ rfl

/-- C5: `Stop` is idempotent — with the closed flag already set it returns
nil without interrupting the listener again and without re-running the
close sweep, leaves the state (registry and flag) unchanged, and returns
without reaching `wg.Wait()` again. -/
theorem stop_idempotent (s : ServerState) (hc : s.closed ≠ 0) :
    Stop s = { ret := GoError.none, state := s, interrupted := false,
               closedConns := [], waited := false } := by
  unfold Stop
  rw [if_pos hc]

/-- Witness for C5: a second `Stop` on an already-stopped server is a
no-op returning nil. -/
theorem stop_idempotent_witness :
    Stop ⟨1, 0, []⟩ =
      { ret := GoError.none, state := ⟨1, 0, []⟩, interrupted := false,
        closedConns := [], waited := false } :=
  stop_idempotent ⟨1, 0, []⟩ (by decide)

/-- The environment of one `processRequests` call (server.go lines 226-297):
the result of `p.inputTransportFactory.GetTransport(client)` (an error, or a
possibly nil transport), the protocol instance id produced by
`p.inputProtocolFactory.GetProtocol(inputTransport)`, whether the type
assertion `inputProtocol.(*thrift.THeaderProtocol)` succeeds, the result of
`p.outputTransportFactory.GetTransport(client)` (consulted only in the
non-header branch), the protocol id produced by
`p.outputProtocolFactory.GetProtocol(outputTransport)`, and the script of
serve-loop iteration inputs. -/
structure SessionEnv where
  inputTransportRes : Except GoError (Option Nat)
  inputProtocolId : Nat
  inputIsHeader : Bool
  outputTransportRes : Except GoError (Option Nat)
  outputProtocolId : Nat
  iters : List IterInput
deriving Repr

/-- The protocol/transport wiring `processRequests` settles on before its
serve loop: which protocol instance reads, which writes, and the separate
output transport if one was constructed. -/
structure ProtocolSetup where
  inputProtocol : Nat
  outputProtocol : Nat
  outputTransport : Option Nat
deriving DecidableEq, Repr

/-- The output wiring of `processRequests` (server.go lines 232-249): for a
`THeaderProtocol` input protocol, `outputProtocol = inputProtocol` and the
`outputTransport` variable stays nil; otherwise the output transport comes
from the output transport factory (an error here aborts the call) and the
output protocol from the output protocol factory. -/
def setupOutput (env : SessionEnv) : Except GoError ProtocolSetup :=
  if env.inputIsHeader then
    Except.ok { inputProtocol := env.inputProtocolId,
                outputProtocol := env.inputProtocolId,
                outputTransport := Option.none }
  else
    match env.outputTransportRes with
    | Except.error e => Except.error e
    | Except.ok ot =>
        Except.ok { inputProtocol := env.inputProtocolId,
                    outputProtocol := env.outputProtocolId,
                    outputTransport := ot }

/-- What one `processRequests` call did: the error it returned (`GoError.none`
for a nil return, including a recovered panic, whose zero-value result is
nil), whether a non-nil input transport was created, whether its deferred
`Close` ran, and likewise for a distinct output transport. -/
structure SessionRun where
  result : GoError
  inputCreated : Bool
  inputClosed : Bool
  outputCreated : Bool
  outputClosed : Bool
deriving DecidableEq, Repr

/-- The error value `processRequests` returns for each way its serve loop
ends; a recovered panic makes the function return its zero-value result,
the nil error. -/
def exitError : SessionExit → GoError
  | SessionExit.retNil => GoError.none
  | SessionExit.retErr e => e
  | SessionExit.panicked => GoError.none

/-- `processRequests` (server.go lines 226-297). An input-transport-factory
error returns at once. Then the output wiring of `setupOutput` runs; note
that an output-transport-factory error also returns at once, and at that
point the `defer inputTransport.Close()` statements (lines 257-262) have
NOT yet been installed, so nothing is closed on that path. Only after the
output wiring succeeds are the recover and close defers installed; every
loop exit (return, break, or recovered panic) then closes the non-nil
transports. `Option.none` models a loop still blocked after the script. -/
def processRequests (env : SessionEnv) : Option SessionRun :=
  match env.inputTransportRes with
  | Except.error e =>
      Option.some { result := e, inputCreated := false, inputClosed := false,
                    outputCreated := false, outputClosed := false }
  | Except.ok it =>
      match setupOutput env with
      | Except.error e =>
          Option.some { result := e, inputCreated := it.isSome,
                        inputClosed := false, outputCreated := false,
                        outputClosed := false }
      | Except.ok ps =>
          (runSessionLoop env.inputIsHeader env.iters).map (fun r =>
            { result := exitError r, inputCreated := it.isSome,
              inputClosed := it.isSome,
              outputCreated := ps.outputTransport.isSome,
              outputClosed := ps.outputTransport.isSome })

/-- C7: for a `THeaderProtocol` input protocol the session reuses the very
same protocol instance for reading and writing and constructs no separate
output transport; otherwise the output transport comes from the output
transport factory and the output protocol from the output protocol
factory. -/
theorem header_protocol_sharing (env : SessionEnv) :
    (env.inputIsHeader = true →
      setupOutput env =
        Except.ok { inputProtocol := env.inputProtocolId,
                    outputProtocol := env.inputProtocolId,
                    outputTransport := Option.none }) ∧
    (env.inputIsHeader = false →
      ∀ ot, env.outputTransportRes = Except.ok ot →
        setupOutput env =
          Except.ok { inputProtocol := env.inputProtocolId,
                      outputProtocol := env.outputProtocolId,
                      outputTransport := ot }) := by
  constructor
  · intro h
    unfold setupOutput
    rw [h]
    simp
  · intro h ot hot
    unfold setupOutput
    rw [h, hot]
    simp

/-- Witness for C7: a header-protocol environment shares instance 11 for
both directions with no output transport; a non-header environment wires
the factory-made transport 8 and protocol 12. -/
theorem header_protocol_sharing_witness :
    (setupOutput ⟨Except.ok (Option.some 5), 11, true,
        Except.ok (Option.some 8), 12, []⟩ =
      Except.ok { inputProtocol := 11, outputProtocol := 11,
                  outputTransport := Option.none }) ∧
    (setupOutput ⟨Except.ok (Option.some 5), 11, false,
        Except.ok (Option.some 8), 12, []⟩ =
      Except.ok { inputProtocol := 11, outputProtocol := 12,
                  outputTransport := Option.some 8 }) :=
  ⟨(header_protocol_sharing ⟨Except.ok (Option.some 5), 11, true,
      Except.ok (Option.some 8), 12, []⟩).1 rfl,
   (header_protocol_sharing ⟨Except.ok (Option.some 5), 11, false,
      Except.ok (Option.some 8), 12, []⟩).2 rfl (Option.some 8) rfl⟩

/-- C6 counterexample: the input transport factory succeeds (transport 5 is
created) but the output transport factory fails; `processRequests` exits on
that setup-failure path with the input transport created yet never closed,
because the close defers are installed only after the output wiring. -/
theorem teardown_gap_cex :
    processRequests ⟨Except.ok (Option.some 5), 11, false,
        Except.error (GoError.other 3), 12, []⟩ =
      Option.some { result := GoError.other 3, inputCreated := true,
                    inputClosed := false, outputCreated := false,
                    outputClosed := false } := by
  rfl

/-- The exit path C6 must exclude: the call aborted because the output
transport factory failed (non-header branch). -/
def outputSetupFails (env : SessionEnv) : Bool :=
  !env.inputIsHeader &&
    (match env.outputTransportRes with
     | Except.error _ => true
     | Except.ok _ => false)

/-- C6 amended: on every exit path of `processRequests` other than the
output-transport-factory failure path — clean end, processor error, frame
error, input-transport setup failure, or recovered fault — the input
transport is closed if one was created, and the output transport is closed
if a distinct one was created. -/
theorem teardown_closes_transports (env : SessionEnv) (r : SessionRun)
    (hrun : processRequests env = Option.some r)
    (hpath : outputSetupFails env = false) :
    (r.inputCreated = true → r.inputClosed = true) ∧
    (r.outputCreated = true → r.outputClosed = true) := by
  obtain ⟨itr, ipid, ih, otr, opid, iters⟩ := env
  cases itr with
  | error e =>
      have hred : processRequests ⟨Except.error e, ipid, ih, otr, opid, iters⟩ =
          Option.some { result := e, inputCreated := false,
                        inputClosed := false, outputCreated := false,
                        outputClosed := false } := rfl
      rw [hred] at hrun
      have h := Option.some.inj hrun
      subst h
      exact ⟨fun h => h, fun h => h⟩
  | ok it =>
      cases ih with
      | true =>
          have hred : processRequests
                ⟨Except.ok it, ipid, true, otr, opid, iters⟩ =
              (runSessionLoop true iters).map (fun ex =>
                { result := exitError ex, inputCreated := it.isSome,
                  inputClosed := it.isSome, outputCreated := false,
                  outputClosed := false }) := rfl
          rw [hred] at hrun
          cases hloop : runSessionLoop true iters with
          | none => rw [hloop] at hrun; exact Option.noConfusion hrun
          | some ex =>
              rw [hloop] at hrun
              have h := Option.some.inj hrun
              subst h
              exact ⟨fun h => h, fun h => h⟩
      | false =>
          cases otr with
          | error e2 =>
              exact absurd (show (true : Bool) = false from hpath) (by decide)
          | ok ot =>
              have hred : processRequests
                    ⟨Except.ok it, ipid, false, Except.ok ot, opid, iters⟩ =
                  (runSessionLoop false iters).map (fun ex =>
                    { result := exitError ex, inputCreated := it.isSome,
                      inputClosed := it.isSome, outputCreated := ot.isSome,
                      outputClosed := ot.isSome }) := rfl
              rw [hred] at hrun
              cases hloop : runSessionLoop false iters with
              | none => rw [hloop] at hrun; exact Option.noConfusion hrun
              | some ex =>
                  rw [hloop] at hrun
                  have h := Option.some.inj hrun
                  subst h
                  exact ⟨fun h => h, fun h => h⟩

/-- Witness for the amended C6: a processor error on the first request of a
non-header session; both created transports are closed. -/
theorem teardown_closes_transports_witness :
    processRequests ⟨Except.ok (Option.some 5), 11, false,
        Except.ok (Option.some 8), 12,
        [⟨false, GoError.none, false, true, GoError.transportExc 2⟩]⟩ =
      Option.some { result := GoError.transportExc 2, inputCreated := true,
                    inputClosed := true, outputCreated := true,
                    outputClosed := true } ∧
    ((true = true → true = true) ∧ (true = true → true = true)) :=
  ⟨rfl,
   teardown_closes_transports
     ⟨Except.ok (Option.some 5), 11, false, Except.ok (Option.some 8), 12,
       [⟨false, GoError.none, false, true, GoError.transportExc 2⟩]⟩
     { result := GoError.transportExc 2, inputCreated := true,
       inputClosed := true, outputCreated := true, outputClosed := true }
     rfl rfl⟩

/-- A store of Go slice backing arrays, indexed by reference: Go slices
share mutable backing storage, so `SetForwardHeaders` traffics in
references into this store rather than in immutable values. -/
def readSlice : List (List String) → Nat → List String
  | [], _ => []
  | a :: _, 0 => a
  | _ :: rest, n + 1 => readSlice rest n

/-- In-place mutation of the backing array a reference designates (writes
out of range are dropped, as no Go mutation of a live slice reaches a
nonexistent array). -/
def writeSlice : List (List String) → Nat → List String → List (List String)
  | [], _, _ => []
  | _ :: rest, 0, v => v :: rest
  | a :: rest, n + 1, v => a :: writeSlice rest n v

/-- Reading just past the end of the store hits a freshly appended array. -/
theorem readSlice_append_length (l : List (List String)) (h : List String) :
    readSlice (l ++ [h]) l.length = h := by
  induction l with
  | nil => rfl
  | cons a rest ih => simpa [readSlice] using ih

/-- A write through a reference below the old store length leaves a freshly
appended array untouched. -/
theorem readSlice_write_append (l : List (List String)) (h : List String)
    (ref : Nat) (v : List String) (href : ref < l.length) :
    readSlice (writeSlice (l ++ [h]) ref v) l.length = h := by
  induction l generalizing ref with
  | nil => exact absurd href (Nat.not_lt_zero ref)
  | cons a rest ih =>
      cases ref with
      | zero =>
          simpa [writeSlice, readSlice] using readSlice_append_length rest h
      | succ n =>
          simpa [writeSlice, readSlice] using
            ih n (Nat.lt_of_succ_lt_succ href)

/-- A reference at or beyond the store length reads the empty list. -/
theorem readSlice_out_of_range (l : List (List String)) (ref : Nat)
    (href : l.length ≤ ref) : readSlice l ref = [] := by
  induction l generalizing ref with
  | nil => rfl
  | cons a rest ih =>
      cases ref with
      | zero => exact absurd href (by simp)
      | succ n => simpa [readSlice] using ih n (Nat.le_of_succ_le_succ href)

/-- The result of a `SetForwardHeaders` call: the slice store after the
call and the server's `forwardHeaders` field (nil, or a reference into the
store). -/
structure SetFHResult where
  store : List (List String)
  forwardHeaders : Option Nat
deriving DecidableEq, Repr

/-- `SetForwardHeaders` (server.go lines 144-154) over the slice store:
`size := len(headers)`; if zero, `p.forwardHeaders = nil`; otherwise
`keys := make([]string, size)` allocates a fresh backing array,
`copy(keys, headers)` fills it with the caller's contents, and
`p.forwardHeaders = keys` stores a reference to the fresh array. -/
def SetForwardHeaders (store : List (List String)) (headersRef : Nat) :
    SetFHResult :=
  let headers := readSlice store headersRef
  if headers.length = 0 then
    { store := store, forwardHeaders := Option.none }
  else
    { store := store ++ [headers], forwardHeaders := Option.some store.length }

/-- The server's effective forward-header list: a nil `forwardHeaders` means
no forwarding (the empty list); otherwise the contents of the referenced
backing array. -/
def effectiveForwardHeaders (store : List (List String)) (fh : Option Nat) :
    List String :=
  match fh with
  | Option.none => []
  | Option.some r => readSlice store r

/-- C8: `SetForwardHeaders` stores a defensive copy — after setting a
non-empty list, any mutation through the caller's original slice reference
leaves the server's effective forward-header list equal to the contents at
call time; and setting an empty (or nil) list clears `forwardHeaders` to
nil, i.e. to no forwarding. -/
theorem set_forward_headers_defensive (store : List (List String))
    (ref : Nat) (v : List String) :
    (readSlice store ref ≠ [] →
      effectiveForwardHeaders
          (writeSlice (SetForwardHeaders store ref).store ref v)
          (SetForwardHeaders store ref).forwardHeaders =
        readSlice store ref) ∧
    (readSlice store ref = [] →
      SetForwardHeaders store ref =
        { store := store, forwardHeaders := Option.none } ∧
      effectiveForwardHeaders (SetForwardHeaders store ref).store
        (SetForwardHeaders store ref).forwardHeaders = []) := by
  constructor
  · intro hne
    have hlen : (readSlice store ref).length ≠ 0 := by
      intro h
      exact hne (List.eq_nil_of_length_eq_zero h)
    have hset : SetForwardHeaders store ref =
        { store := store ++ [readSlice store ref],
          forwardHeaders := Option.some store.length } := by
      unfold SetForwardHeaders
      simp [hlen]
    have href : ref < store.length := by
      by_contra hge
      exact hne (readSlice_out_of_range store ref (Nat.le_of_not_lt hge))
    rw [hset]
    simpa [effectiveForwardHeaders] using
      readSlice_write_append store (readSlice store ref) ref v href
  · intro hnil
    have hset : SetForwardHeaders store ref =
        { store := store, forwardHeaders := Option.none } := by
      unfold SetForwardHeaders
      simp [hnil]
    exact ⟨hset, by rw [hset]; rfl⟩


/-- Witness for C8: setting `["a", "b"]` then overwriting the caller's
slice with `["x"]` leaves the effective list `["a", "b"]`; setting an empty
slice clears `forwardHeaders` to nil. -/
theorem set_forward_headers_defensive_witness :
    effectiveForwardHeaders
        (writeSlice (SetForwardHeaders [["a", "b"]] 0).store 0 ["x"])
        (SetForwardHeaders [["a", "b"]] 0).forwardHeaders =
      readSlice [["a", "b"]] 0 ∧
    (SetForwardHeaders [[], ["a"]] 0 =
        { store := [[], ["a"]], forwardHeaders := Option.none } ∧
      effectiveForwardHeaders (SetForwardHeaders [[], ["a"]] 0).store
        (SetForwardHeaders [[], ["a"]] 0).forwardHeaders = []) :=
  ⟨(set_forward_headers_defensive [["a", "b"]] 0 ["x"]).1 (by decide),
   (set_forward_headers_defensive [[], ["a"]] 0 []).2 rfl⟩

/-- The `thrift.TTransportFactory` values a server can be configured with:
`identity` is `thrift.NewTTransportFactory()` (the factory that returns its
argument unchanged), `custom` any other factory. -/
inductive TTransportFactory where
  | identity
  | custom (id : Nat)
deriving DecidableEq, Repr

/-- The `thrift.TProtocolFactory` values a server can be configured with:
`binaryDefault` is `thrift.NewTBinaryProtocolFactoryDefault()`, `custom`
any other factory. -/
inductive TProtocolFactory where
  | binaryDefault
  | custom (id : Nat)
deriving DecidableEq, Repr

/-- The `thrift.TProcessorFactory` values: `fromProcessor p` is
`thrift.NewTProcessorFactory(p)` wrapping the processor with id `p`,
`custom` any other factory. -/
inductive TProcessorFactory where
  | fromProcessor (p : Nat)
  | custom (id : Nat)
deriving DecidableEq, Repr

/-- `thrift.NewTProcessorFactory`. -/
def NewTProcessorFactory (p : Nat) : TProcessorFactory :=
  TProcessorFactory.fromProcessor p

/-- The configuration fields of the `Server` struct set by the
constructors; `forwardHeaders` starts nil and `connections` starts as the
empty map. -/
structure ServerConfig where
  processorFactory : TProcessorFactory
  serverTransport : Nat
  inputTransportFactory : TTransportFactory
  outputTransportFactory : TTransportFactory
  inputProtocolFactory : TProtocolFactory
  outputProtocolFactory : TProtocolFactory
  forwardHeaders : Option Nat
  connections : List Nat
deriving DecidableEq, Repr

/-- `NewServerFactory6` (server.go lines 96-106), the fully explicit
constructor. -/
def NewServerFactory6 (pf : TProcessorFactory) (st : Nat)
    (itf otf : TTransportFactory) (ipf opf : TProtocolFactory) :
    ServerConfig :=
  { processorFactory := pf, serverTransport := st,
    inputTransportFactory := itf, outputTransportFactory := otf,
    inputProtocolFactory := ipf, outputProtocolFactory := opf,
    forwardHeaders := Option.none, connections := [] }

/-- `NewServerFactory2` (server.go lines 74-83): delegates to
`NewServerFactory6` with two `thrift.NewTTransportFactory()` and two
`thrift.NewTBinaryProtocolFactoryDefault()`. -/
def NewServerFactory2 (pf : TProcessorFactory) (st : Nat) : ServerConfig :=
  NewServerFactory6 pf st TTransportFactory.identity
    TTransportFactory.identity TProtocolFactory.binaryDefault
    TProtocolFactory.binaryDefault

/-- `NewServerFactory4` (server.go lines 85-94): delegates to
`NewServerFactory6` reusing its one transport factory and one protocol
factory for both positions. -/
def NewServerFactory4 (pf : TProcessorFactory) (st : Nat)
    (tf : TTransportFactory) (prf : TProtocolFactory) : ServerConfig :=
  NewServerFactory6 pf st tf tf prf prf

/-- `NewServer2` (server.go lines 50-52). -/
def NewServer2 (p : Nat) (st : Nat) : ServerConfig :=
  NewServerFactory2 (NewTProcessorFactory p) st

/-- `NewServer4` (server.go lines 54-61). -/
def NewServer4 (p : Nat) (st : Nat) (tf : TTransportFactory)
    (prf : TProtocolFactory) : ServerConfig :=
  NewServerFactory4 (NewTProcessorFactory p) st tf prf

/-- `NewServer6` (server.go lines 63-72). -/
def NewServer6 (p : Nat) (st : Nat) (itf otf : TTransportFactory)
    (ipf opf : TProtocolFactory) : ServerConfig :=
  NewServerFactory6 (NewTProcessorFactory p) st itf otf ipf opf

/-- The two-argument server exactly as the spec words it: identity
transport factories in both positions and default binary protocol
factories for both directions. -/
def specTwoArgServer (pf : TProcessorFactory) (st : Nat) : ServerConfig :=
  { processorFactory := pf, serverTransport := st,
    inputTransportFactory := TTransportFactory.identity,
    outputTransportFactory := TTransportFactory.identity,
    inputProtocolFactory := TProtocolFactory.binaryDefault,
    outputProtocolFactory := TProtocolFactory.binaryDefault,
    forwardHeaders := Option.none, connections := [] }

/-- The four-argument server exactly as the spec words it: the single
transport factory and single protocol factory reused for both the input
and output positions. -/
def specFourArgServer (pf : TProcessorFactory) (st : Nat)
    (tf : TTransportFactory) (prf : TProtocolFactory) : ServerConfig :=
  { processorFactory := pf, serverTransport := st,
    inputTransportFactory := tf, outputTransportFactory := tf,
    inputProtocolFactory := prf, outputProtocolFactory := prf,
    forwardHeaders := Option.none, connections := [] }

/-- C9: every constructor delegates to the six-factory constructor; the
two-argument form yields identity transport factories and default binary
protocol factories in both positions, and the four-argument form reuses
its single transport factory and single protocol factory for both the
input and output positions. -/
theorem constructors_delegate (pf : TProcessorFactory) (p st : Nat)
    (tf itf otf : TTransportFactory) (prf ipf opf : TProtocolFactory) :
    NewServerFactory2 pf st = specTwoArgServer pf st ∧
    NewServerFactory4 pf st tf prf = specFourArgServer pf st tf prf ∧
    NewServerFactory2 pf st =
      NewServerFactory6 pf st TTransportFactory.identity
        TTransportFactory.identity TProtocolFactory.binaryDefault
        TProtocolFactory.binaryDefault ∧
    NewServerFactory4 pf st tf prf = NewServerFactory6 pf st tf tf prf prf ∧
    NewServer2 p st = NewServerFactory2 (NewTProcessorFactory p) st ∧
    NewServer4 p st tf prf =
      NewServerFactory4 (NewTProcessorFactory p) st tf prf ∧
    NewServer6 p st itf otf ipf opf =
      NewServerFactory6 (NewTProcessorFactory p) st itf otf ipf opf :=
  ⟨rfl, rfl, rfl, rfl, rfl, rfl, rfl⟩
